import Mathlib

/-!
# Verification of the `atsam3xa` UOTGHS host driver

Shallow embedding of the USB On-The-Go High-Speed host driver found in
`src/hal/src/uotghs/mod.rs` and `src/hal/src/uotghs/pipe.rs`, together with
theorems settling the frozen claims about it.

Modelling conventions:
* machine integers are `Nat`, with explicit `% 2^w` where the source's
  wrapping behaviour matters;
* register state is an explicit `Regs` record threaded through the pipe
  operations; individual register bits live in `Nat` bitmasks;
* a source panic (`unreachable!()`, out-of-bounds index, `unwrap` failure,
  underflowing debug arithmetic) is modelled by an outer `Option` whose
  `none` means "the code panics here";
* fallible operations return `Except`.
-/

namespace Atsam3xa

/-! ## Constants (from `pipe.rs` and `mod.rs`) -/

/-- Constant `MAX_PIPES` (`pub(crate) const MAX_PIPES: u8 = 10;`, `pipe.rs`). -/
def MAX_PIPES : Nat := 10

/-- Constant `MAX_DEVICES` (`const MAX_DEVICES: usize = 4;`, `mod.rs`). -/
def MAX_DEVICES : Nat := 4

/-- Constant `NAK_LIMIT` (`const NAK_LIMIT: usize = 15;`, `mod.rs`). -/
def NAK_LIMIT : Nat := 15

/-! ## Bit helpers for `Nat` bitmask registers -/

/-- Set bit `i` of `x` (models `w.penN().set_bit()` style writes). -/
def setBit (i x : Nat) : Nat := x ||| 2 ^ i

/-- Clear bit `i` of `x` (models `w.penN().clear_bit()` style writes). -/
def clearBit (i x : Nat) : Nat := if x.testBit i then x - 2 ^ i else x

/-! ## Pipe configuration and register file (`pipe.rs`) -/

/-- The `PTYPE_A` field from the PAC: the pipe endpoint type field. -/
inductive PTYPE
  | CTRL
  | ISO
  | BLK
  | INTRPT
deriving DecidableEq, Repr

/-- The `PTOKEN_A` field from the PAC: the pipe token (direction/phase) field. -/
inductive PTOKEN
  | SETUP
  | IN
  | OUT
deriving DecidableEq, Repr

/-- The `PBK_A` field from the PAC: the pipe bank-count field. -/
inductive PBK
  | bank1
  | bank2
  | bank3
deriving DecidableEq, Repr

/-- One `HSTPIPCFG[n]` register, as the record of the fields the driver
writes in `Pipe::init_0` / `Pipe::init_n`. -/
structure PipeCfg where
  intfrq : Nat
  pepnum : Nat
  ptype : PTYPE
  ptoken : PTOKEN
  psize : Nat
  pbk : PBK
  autosw : Bool
  alloc : Bool
deriving DecidableEq, Repr

/-- The UOTGHS register state touched by the pipe operations.
`pen`/`prst` are the pipe-enable and pipe-reset bits of `HSTPIP`,
`rstdts` collects the `RSTDTS` write-bits of `HSTPIPIER[n]`,
`hstpipcfg` is the array `HSTPIPCFG[0..9]`, `hstaddrp` the ten per-pipe
address sub-fields packed into `HSTADDR1`/`HSTADDR2`/`HSTADDR3`, and
`cfgok` the hardware-driven `CFGOK` bits of `HSTPIPISR[n]`. -/
structure Regs where
  pen : Nat
  prst : Nat
  rstdts : Nat
  hstpipcfg : List PipeCfg
  hstaddrp : List Nat
  cfgok : Nat
deriving DecidableEq, Repr

/-- Errors that can result from operations on pipes (`PipeError` in
`pipe.rs`; `InvalidConfiguration` carries the rejected `HSTPIPCFG`
contents, modelled structurally instead of as raw `u32` bits). -/
inductive PipeError
  | OutOfRange (n : Nat)
  | InvalidSize (sz : Nat)
  | InvalidConfiguration (cfg : PipeCfg)
  | OutOfPipes
  | InvalidOperation
deriving DecidableEq, Repr

namespace Pipe

/-- Method `Pipe::get`: bounds-check the pipe number against `MAX_PIPES`. -/
def get (pipe_num : Nat) : Except PipeError Nat :=
  if pipe_num < MAX_PIPES then .ok pipe_num else .error (.OutOfRange pipe_num)

/-- Method `Pipe::enabled`: reads the `PEN` bit selected by a `match` on the pipe
number.  The source lists arms for pipes 0–8 only; the arm for pipe 9 is
commented out, so pipe 9 falls into `_ => unreachable!()`, modelled as
`none`. -/
def enabled (r : Regs) (pipe_num : Nat) : Option Bool :=
  match pipe_num with
  | 0 => some (r.pen.testBit 0)
  | 1 => some (r.pen.testBit 1)
  | 2 => some (r.pen.testBit 2)
  | 3 => some (r.pen.testBit 3)
  | 4 => some (r.pen.testBit 4)
  | 5 => some (r.pen.testBit 5)
  | 6 => some (r.pen.testBit 6)
  | 7 => some (r.pen.testBit 7)
  | 8 => some (r.pen.testBit 8)
  | _ => none

/-- Method `Pipe::enable`: sets the `PEN` bit, same commented-out pipe-9 arm. -/
def enable (r : Regs) (pipe_num : Nat) : Option Regs :=
  match pipe_num with
  | 0 => some { r with pen := setBit 0 r.pen }
  | 1 => some { r with pen := setBit 1 r.pen }
  | 2 => some { r with pen := setBit 2 r.pen }
  | 3 => some { r with pen := setBit 3 r.pen }
  | 4 => some { r with pen := setBit 4 r.pen }
  | 5 => some { r with pen := setBit 5 r.pen }
  | 6 => some { r with pen := setBit 6 r.pen }
  | 7 => some { r with pen := setBit 7 r.pen }
  | 8 => some { r with pen := setBit 8 r.pen }
  | _ => none

/-- Method `Pipe::disable`: clears the `PEN` bit, same commented-out pipe-9 arm. -/
def disable (r : Regs) (pipe_num : Nat) : Option Regs :=
  match pipe_num with
  | 0 => some { r with pen := clearBit 0 r.pen }
  | 1 => some { r with pen := clearBit 1 r.pen }
  | 2 => some { r with pen := clearBit 2 r.pen }
  | 3 => some { r with pen := clearBit 3 r.pen }
  | 4 => some { r with pen := clearBit 4 r.pen }
  | 5 => some { r with pen := clearBit 5 r.pen }
  | 6 => some { r with pen := clearBit 6 r.pen }
  | 7 => some { r with pen := clearBit 7 r.pen }
  | 8 => some { r with pen := clearBit 8 r.pen }
  | _ => none

/-- Method `Pipe::reset`: writes `RSTDTS` to `HSTPIPIER[n]`, then clears the
`PRSTn` bit of `HSTPIP` via a `match` whose pipe-9 arm is commented out
(`_ => unreachable!()`, modelled as `none`). -/
def reset (r : Regs) (pipe_num : Nat) : Option Regs :=
  let r1 : Regs := { r with rstdts := setBit pipe_num r.rstdts }
  match pipe_num with
  | 0 => some { r1 with prst := clearBit 0 r1.prst }
  | 1 => some { r1 with prst := clearBit 1 r1.prst }
  | 2 => some { r1 with prst := clearBit 2 r1.prst }
  | 3 => some { r1 with prst := clearBit 3 r1.prst }
  | 4 => some { r1 with prst := clearBit 4 r1.prst }
  | 5 => some { r1 with prst := clearBit 5 r1.prst }
  | 6 => some { r1 with prst := clearBit 6 r1.prst }
  | 7 => some { r1 with prst := clearBit 7 r1.prst }
  | 8 => some { r1 with prst := clearBit 8 r1.prst }
  | _ => none

/-- Method `Pipe::configure_address`: writes the device address into the per-pipe
sub-field of `HSTADDR1`/`HSTADDR2`/`HSTADDR3` selected by a ten-arm
`match` (this one does cover pipe 9). -/
def configure_address (r : Regs) (pipe_num : Nat) (address : Nat) : Option Regs :=
  match pipe_num with
  | 0 => some { r with hstaddrp := r.hstaddrp.set 0 address }
  | 1 => some { r with hstaddrp := r.hstaddrp.set 1 address }
  | 2 => some { r with hstaddrp := r.hstaddrp.set 2 address }
  | 3 => some { r with hstaddrp := r.hstaddrp.set 3 address }
  | 4 => some { r with hstaddrp := r.hstaddrp.set 4 address }
  | 5 => some { r with hstaddrp := r.hstaddrp.set 5 address }
  | 6 => some { r with hstaddrp := r.hstaddrp.set 6 address }
  | 7 => some { r with hstaddrp := r.hstaddrp.set 7 address }
  | 8 => some { r with hstaddrp := r.hstaddrp.set 8 address }
  | 9 => some { r with hstaddrp := r.hstaddrp.set 9 address }
  | _ => none

end Pipe

/-! ## Pipe size-class arithmetic (`pipe.rs`, `init_0` / `init_n`)

The source computes
`(ep_size.next_power_of_two().trailing_zeros() - 4) as u8`
in `u32` arithmetic.  For `ep_size < 8` the subtraction underflows:
debug builds panic, release builds wrap modulo `2^32`; we model the
release (wrapping) behaviour. -/

/-- Fuel-driven core of `next_power_of_two`: the smallest power of two
that is `≥ n`, via `np2 n = 2 * np2 (ceil (n / 2))`.  Sixteen halvings
always exhaust a `u16` argument. -/
def next_pow2Aux : Nat → Nat → Nat
  | 0, _ => 1
  | fuel + 1, n => if n ≤ 1 then 1 else 2 * next_pow2Aux fuel ((n + 1) / 2)

/-- Function `u16::next_power_of_two` (release semantics: wraps to 0 on overflow,
hence the `% 65536`). -/
def next_power_of_two_u16 (n : Nat) : Nat :=
  next_pow2Aux 17 n % 65536

/-- Fuel-driven core of `trailing_zeros`. -/
def trailing_zerosAux : Nat → Nat → Nat
  | 0, _ => 0
  | fuel + 1, n => if n % 2 = 1 then 0 else trailing_zerosAux fuel (n / 2) + 1

/-- Function `u16::trailing_zeros` (a `u16` value of 0 has 16 trailing zeros;
sixteen halvings exhaust any nonzero `u16`). -/
def trailing_zeros (n : Nat) : Nat :=
  if n = 0 then 16 else trailing_zerosAux 16 n

/-- The `PSIZE` value written by `init_0`/`init_n`:
`(ep_size.next_power_of_two().trailing_zeros() - 4) as u8` with wrapping
`u32` subtraction followed by the `as u8` truncation. -/
def pipe_size_of (ep_size : Nat) : Nat :=
  ((trailing_zeros (next_power_of_two_u16 ep_size) + 4294967296 - 4) % 4294967296) % 256

namespace Pipe

/-- Method `Pipe::init_n`: enable the channel, program `HSTPIPCFG[n]`, set
`ALLOC`, read back `CFGOK`; on rejection disable the channel and return
`InvalidConfiguration`, otherwise program the pipe's device address.
Note there is no minimum-size check here (unlike `init_0`): the size
class is computed unconditionally. -/
def init_n (r : Regs) (pipe_num address ep_num : Nat) (ep_type : PTYPE)
    (ep_dir : PTOKEN) (ep_size poll_freq : Nat) (num_banks : PBK) :
    Option (Except PipeError Unit × Regs) :=
  match Pipe.enable r pipe_num with
  | none => none
  | some r1 =>
    match r1.hstpipcfg.get? pipe_num with
    | none => none
    | some old =>
      let cfg1 : PipeCfg :=
        { old with
          intfrq := poll_freq
          pepnum := ep_num
          ptype := ep_type
          ptoken := ep_dir
          psize := pipe_size_of ep_size
          pbk := num_banks
          autosw := true }
      let cfg2 : PipeCfg := { cfg1 with alloc := true }
      let r2 : Regs := { r1 with hstpipcfg := r1.hstpipcfg.set pipe_num cfg2 }
      if r2.cfgok.testBit pipe_num then
        match Pipe.configure_address r2 pipe_num address with
        | none => none
        | some r3 => some (.ok (), r3)
      else
        match Pipe.disable r2 pipe_num with
        | none => none
        | some r3 => some (.error (.InvalidConfiguration cfg2), r3)

/-- Method `Pipe::init_0`: the restricted channel-0 path used during
enumeration.  This path does check `ep_size < 8` first and returns
`InvalidSize` with no register mutation; if channel 0 is already enabled
it returns `Ok` immediately. -/
def init_0 (r : Regs) (address ep_size : Nat) : Option (Except PipeError Unit × Regs) :=
  if ep_size < 8 then some (.error (.InvalidSize ep_size), r)
  else
    match Pipe.enabled r 0 with
    | none => none
    | some true => some (.ok (), r)
    | some false =>
      match Pipe.enable r 0 with
      | none => none
      | some r1 =>
        match r1.hstpipcfg.get? 0 with
        | none => none
        | some old =>
          let cfg1 : PipeCfg :=
            { old with
              intfrq := 0
              pepnum := 0
              ptype := PTYPE.CTRL
              ptoken := PTOKEN.SETUP
              psize := pipe_size_of ep_size
              pbk := PBK.bank1
              autosw := false }
          let cfg2 : PipeCfg := { cfg1 with alloc := true }
          let r2 : Regs := { r1 with hstpipcfg := r1.hstpipcfg.set 0 cfg2 }
          if r2.cfgok.testBit 0 then
            match Pipe.configure_address r2 0 address with
            | none => none
            | some r3 => some (.ok (), r3)
          else
            match Pipe.disable r2 0 with
            | none => none
            | some r3 => some (.error (.InvalidConfiguration cfg2), r3)

/-- The scan loop of `Pipe::alloc` over candidate pipe numbers: skip
enabled channels; at the first disabled one run `init_n` and return its
result (the `?` in the source propagates an `Err` immediately). -/
def allocLoop (address ep_num : Nat) (ep_type : PTYPE) (ep_dir : PTOKEN)
    (ep_size poll_freq : Nat) (num_banks : PBK) :
    List Nat → Regs → Option (Except PipeError Nat × Regs)
  | [], r => some (.error .OutOfPipes, r)
  | n :: rest, r =>
    match Pipe.enabled r n with
    | none => none
    | some true => allocLoop address ep_num ep_type ep_dir ep_size poll_freq num_banks rest r
    | some false =>
      match Pipe.init_n r n address ep_num ep_type ep_dir ep_size poll_freq num_banks with
      | none => none
      | some (.error e, r') => some (.error e, r')
      | some (.ok _, r') => some (.ok n, r')

/-- Method `Pipe::alloc`: `for pipe_num in 1..MAX_PIPES { ... }`. -/
def alloc (r : Regs) (address ep_num : Nat) (ep_type : PTYPE) (ep_dir : PTOKEN)
    (ep_size poll_freq : Nat) (num_banks : PBK) : Option (Except PipeError Nat × Regs) :=
  allocLoop address ep_num ep_type ep_dir ep_size poll_freq num_banks
    (List.range' 1 (MAX_PIPES - 1)) r

end Pipe

/-! ## Shared transfer memory (`pipe.rs`, `read` / `write`)

The UOTGHS RAM is modelled as a `List Nat` of bytes.  The source slices
it as `uotghs_ram[pipe_num .. pipe_num + buf.len()]`: the per-pipe offset
is the *pipe index itself*, with no per-pipe stride. -/

/-- Constant `UOTGHS_RAM_SIZE` (`const UOTGHS_RAM_SIZE: usize = 0x8000;`). -/
def UOTGHS_RAM_SIZE : Nat := 32768

/-- The `copy_from_slice` into the sub-slice starting at `offset`. -/
def writeSlice (ram : List Nat) (offset : Nat) (buf : List Nat) : List Nat :=
  buf.enum.foldl (fun acc p => acc.set (offset + p.1) p.2) ram

namespace Pipe

/-- Method `Pipe::write`: requires the channel to be enabled, then copies the
caller's buffer into `ram[pipe_num .. pipe_num + buf.len()]`.  A slice
range beyond the RAM length panics in the source (`none`). -/
def write (r : Regs) (ram : List Nat) (pipe_num : Nat) (buf : List Nat) :
    Option (Except PipeError (List Nat)) :=
  match Pipe.enabled r pipe_num with
  | none => none
  | some false => some (.error .InvalidOperation)
  | some true =>
    if pipe_num + buf.length ≤ ram.length then
      some (.ok (writeSlice ram pipe_num buf))
    else none

/-- Method `Pipe::read`: copies `ram[pipe_num .. pipe_num + len]` into the
caller's buffer (no enabled check in the source); returns the bytes read. -/
def read (ram : List Nat) (pipe_num len : Nat) : Option (List Nat) :=
  if pipe_num + len ≤ ram.length then some ((ram.drop pipe_num).take len) else none

end Pipe

/-- The pipe-reset loop of `UsbOtgHs::reset`:
`for pipe_num in 0..MAX_PIPES { Pipe::get(..).unwrap().reset(); }`.
The `unwrap` never fails (the loop is bounded by `MAX_PIPES`), but
`Pipe::reset` itself panics at pipe 9. -/
def UsbOtgHs.resetPipes (r : Regs) : Option Regs :=
  (List.range MAX_PIPES).foldlM (fun acc n => Pipe.reset acc n) r

/-! ## Host state machine (`mod.rs`) -/

/-- Enum `TaskState`: state of an attached device. -/
inductive TaskState
  | Configuring
  | Running
  | Error
deriving DecidableEq, Repr

/-- Enum `HostState`: host state of the UOTGHS controller.  These same values
are what the interrupt handler pushes into the event channel. -/
inductive HostState
  | NoVbus
  | Detached
  | Attached (t : TaskState)
  | Error
deriving DecidableEq, Repr

/-- The `usb_host::TransferError` type (external crate; carried opaquely). -/
inductive TransferError
  | mk
deriving DecidableEq, Repr

/-- The `usb_host::DriverError` type: `Transient` vs `Permanent(address, ...)`
(the reason string is dropped). -/
inductive DriverError
  | Transient
  | Permanent (addr : Nat)
deriving DecidableEq, Repr

/-- Enum `HostError` from `mod.rs`, extended with `TransferFailed`: the source
applies `?` to `control_transfer` results inside `configure_dev`, which
requires converting a `TransferError` into a `HostError`; that conversion
(like the pipe-level transfer code itself) is absent from the tree, so the
evident variant is supplied. -/
inductive HostError
  | OutOfDevices
  | DriverError (e : DriverError)
  | TransferFailed (e : TransferError)
deriving DecidableEq, Repr

/-! ## Device table (`mod.rs`) -/

/-- The `struct Device { addr: u8 }` record. -/
structure Device where
  addr : Nat
deriving DecidableEq, Repr

/-- The `struct DeviceTable { tbl: [Option<Device>; MAX_DEVICES] }` record. -/
structure DeviceTable where
  tbl : List (Option Device)
deriving DecidableEq, Repr

/-- Method `DeviceTable::new`: all slots empty. -/
def DeviceTable.new : DeviceTable := ⟨List.replicate MAX_DEVICES none⟩

/-- The scan of `DeviceTable::next`: find the first `None` slot at index
`i`, store `Device { addr: i }` there and return it. -/
def nextAux : List (Option Device) → Nat → Option Device × List (Option Device)
  | [], _ => (none, [])
  | none :: rest, i => (some ⟨i⟩, some ⟨i⟩ :: rest)
  | some d :: rest, i =>
    let r := nextAux rest (i + 1)
    (r.1, some d :: r.2)

/-- Method `DeviceTable::next`: allocate a device with the next available
address (the slot index), or `none` when all slots are occupied. -/
def DeviceTable.next (t : DeviceTable) : Option Device × DeviceTable :=
  let r := nextAux t.tbl 0
  (r.1, ⟨r.2⟩)

/-- Method `DeviceTable::remove`: `self.tbl[addr as usize].take()`.  The array
index panics for `addr ≥ MAX_DEVICES` (outer `none`); otherwise returns
the removed entry and the table with that slot cleared. -/
def DeviceTable.remove (t : DeviceTable) (addr : Nat) : Option (Option Device × DeviceTable) :=
  if addr < t.tbl.length then
    some (t.tbl.getD addr none, ⟨t.tbl.set addr none⟩)
  else none

/-! ## Drivers and the hardware environment for `task` / `configure_dev`

The transfer results and the negotiated speed come from the hardware and
the attached device; they are abstracted into an `Env` record.  (The
pipe-level `control_transfer` implementation invoked by `configure_dev`
is absent from the source tree — `UsbOtgHs` has no `pipe_table` field and
`Pipe` has no `control_transfer` method — so only its result is
modelled.)  A driver is abstracted by the answers it gives to the
capability interface. -/

/-- The `SPEED_A` field of the UOTGHS `SR` register; `invalid` stands for the
reserved raw values the PAC exposes through `Variant::Res`. -/
inductive Speed
  | HIGH_SPEED
  | FULL_SPEED
  | LOW_SPEED
  | invalid
deriving DecidableEq, Repr

/-- Equality on `Except` results is decidable (needed to `decide`
concrete evaluations of the models below). -/
instance instDecEqExcept {ε α : Type} [DecidableEq ε] [DecidableEq α] :
    DecidableEq (Except ε α)
  | .error e1, .error e2 =>
    if h : e1 = e2 then isTrue (by rw [h])
    else isFalse (fun hc => h (by cases hc; rfl))
  | .error _, .ok _ => isFalse (fun hc => Except.noConfusion hc)
  | .ok _, .error _ => isFalse (fun hc => Except.noConfusion hc)
  | .ok a1, .ok a2 =>
    if h : a1 = a2 then isTrue (by rw [h])
    else isFalse (fun hc => h (by cases hc; rfl))

/-- Hardware/device environment for one `configure_dev` run. -/
structure Env where
  speed : Speed
  getDescriptor : Except TransferError Unit
  setAddress : Except TransferError Unit
deriving DecidableEq, Repr

/-- A driver, abstracted by its answers to the capability interface
(`want_device`, `add_device`, `tick`). -/
structure DriverM where
  wantDevice : Bool
  addDeviceResult : Except DriverError Unit
  tickResult : Except DriverError Unit
deriving DecidableEq, Repr

/-- Method `UsbOtgHs::configure_dev`: map the negotiated speed to the default
control-pipe packet size (reserved speed values hit `unreachable!()`,
modelled as `none`); run `GetDescriptor` against address 0; allocate a
device slot (`OutOfDevices` when the table is full); run `SetAddress`;
then offer the device to the drivers in order — the first driver with
`want_device == true` takes it via `add_device`. -/
def configure_dev (env : Env) (drivers : List DriverM) (devices : DeviceTable) :
    Option (Except HostError Unit × DeviceTable) :=
  let mps : Option Nat :=
    match env.speed with
    | .HIGH_SPEED => some 512
    | .FULL_SPEED => some 64
    | .LOW_SPEED => some 8
    | .invalid => none
  match mps with
  | none => none
  | some _ =>
    match env.getDescriptor with
    | .error e => some (.error (.TransferFailed e), devices)
    | .ok _ =>
      match devices.next with
      | (none, devices') => some (.error .OutOfDevices, devices')
      | (some _, devices') =>
        match env.setAddress with
        | .error e => some (.error (.TransferFailed e), devices')
        | .ok _ =>
          match drivers.find? (fun d => d.wantDevice) with
          | some d =>
            match d.addDeviceResult with
            | .error e => some (.error (.DriverError e), devices')
            | .ok _ => some (.ok (), devices')
          | none => some (.ok (), devices')

/-- The driver loop of the `Attached(Running)` arm of `UsbOtgHs::task`:
tick each driver; on `Err(Permanent(a, _))` call that driver's
`remove_device(a)` (recorded as the pair `(driver index, a)`) and then
`devices.remove(a)` (which panics for `a ≥ MAX_DEVICES`: outer `none`).
`Ok` and `Err(Transient)` ticks touch nothing. -/
def tickDrivers : List DriverM → Nat → DeviceTable →
    Option (DeviceTable × List (Nat × Nat))
  | [], _, devices => some (devices, [])
  | d :: rest, idx, devices =>
    match d.tickResult with
    | .ok _ => tickDrivers rest (idx + 1) devices
    | .error .Transient => tickDrivers rest (idx + 1) devices
    | .error (.Permanent a) =>
      match devices.remove a with
      | none => none
      | some (_, devices') =>
        match tickDrivers rest (idx + 1) devices' with
        | none => none
        | some (devices'', calls) => some (devices'', (idx, a) :: calls)

/-- The driver state the polling entry point operates on: host state,
device table and the pending-event queue (most recent first; the
interrupt handler pushes to the front, `shift` pops from the front). -/
structure HostModel where
  host_state : HostState
  devices : DeviceTable
  events : List HostState
deriving DecidableEq, Repr

/-- Method `UsbOtgHs::task`: pop at most one event and *unconditionally* replace
the host state with it; then dispatch on the (possibly new) state:
`Attached(Configuring)` runs `configure_dev` and moves to
`Attached(Running)` on `Ok` and `Attached(Error)` on `Err`;
`Attached(Running)` ticks the drivers; every other state does nothing.
Also returns the list of `remove_device` calls made. -/
def task (env : Env) (drivers : List DriverM) (s : HostModel) :
    Option (HostModel × List (Nat × Nat)) :=
  let st : HostState :=
    match s.events with
    | e :: _ => e
    | [] => s.host_state
  let evs := s.events.tail
  match st with
  | .Attached .Configuring =>
    match configure_dev env drivers s.devices with
    | none => none
    | some (.ok _, devices') =>
      some ({ host_state := .Attached .Running, devices := devices', events := evs }, [])
    | some (.error _, devices') =>
      some ({ host_state := .Attached .Error, devices := devices', events := evs }, [])
  | .Attached .Running =>
    match tickDrivers drivers 0 s.devices with
    | none => none
    | some (devices', calls) =>
      some ({ host_state := st, devices := devices', events := evs }, calls)
  | other =>
    some ({ host_state := other, devices := s.devices, events := evs }, [])

/-- Spec-side statement of the amended §4.4 transition rule: the popped
event *is* the successor state (last observation wins), except that a
state of `Attached(Configuring)` immediately continues into enumeration
within the same `task` call, ending `Attached(Running)` on success and
`Attached(Error)` on failure. -/
def stepState (env : Env) (drivers : List DriverM) (devices : DeviceTable) :
    HostState → HostState
  | .Attached .Configuring =>
    match configure_dev env drivers devices with
    | some (.ok _, _) => .Attached .Running
    | _ => .Attached .Error
  | s => s

/-! ## Control transfer protocol -/

/-- One observable stage of a control transfer: the Setup stage with its
request length, one Data-stage chunk with its byte count and the number
of attempts it took (1 = accepted first time), or the Status stage. -/
inductive StageEv
  | setup (len : Nat)
  | dataChunk (len : Nat) (attempts : Nat)
  | status
deriving DecidableEq, Repr

/-- Modelled from the spec: the chunking of a Data stage of `n` bytes
into packets of at most the pipe's negotiated `packet_size` bytes
(§4.7: "chunked to the pipe's negotiated packet size").  The pipe-level
transfer code this describes (`Pipe::control_transfer`) is absent from
the source tree. -/
def chunkSizesAux (ps : Nat) : Nat → Nat → List Nat
  | _, 0 => []
  | 0, _ + 1 => []
  | fuel + 1, n + 1 => min ps (n + 1) :: chunkSizesAux ps fuel (n + 1 - min ps (n + 1))

/-- The chunk list proper: `n` bytes cut into packets of at most `ps`
bytes (`n` itself is enough fuel once `ps ≥ 1`). -/
def chunkSizes (ps n : Nat) : List Nat :=
  if ps = 0 then [] else chunkSizesAux ps n n

/-- Modelled from the spec: one token issued and re-issued while the
device answers NAK, "repeated with a bounded retry count — the
hardware-imposed NAK limit, default 15 — before declaring
`TransferError`" (§4.7).  `naks` is how many NAKs the device gives
before accepting; the result is the number of attempts used, or `none`
on NAK exhaustion. -/
def runChunk (naks : Nat) : Option Nat :=
  if naks < NAK_LIMIT then some (naks + 1) else none

/-- Modelled from the spec: abstraction of the attached device's
behaviour during one control transfer — whether the hardware accepted
the pipe configuration, and how many NAKs the device answers for the
`k`-th data chunk and for the status stage. -/
structure CtrlEnv where
  cfgAccepted : Bool
  dataNaks : Nat → Nat
  statusNaks : Nat

/-- Modelled from the spec: run the Data-stage chunks in order starting
at chunk index `k`, failing on the first chunk whose NAKs reach the
limit. -/
def dataStage (env : CtrlEnv) : Nat → List Nat → Option (List StageEv)
  | _, [] => some []
  | k, c :: rest =>
    match runChunk (env.dataNaks k) with
    | none => none
    | some att =>
      match dataStage env (k + 1) rest with
      | none => none
      | some evs => some (StageEv.dataChunk c att :: evs)

/-- Modelled from the spec: `control_transfer` (§4.7).  The pipe-level
implementation is absent from the source tree (`UsbOtgHs` has no
`pipe_table` field and `Pipe` has no `control_transfer` method; only the
caller `UsbOtgHs::control_transfer` and `NAK_LIMIT` exist), so the
three-stage protocol is modelled from the spec's words: a Setup stage
with the 8-byte request, an optional Data stage chunked to the pipe's
packet size with per-chunk NAK retries, and a Status stage; returns the
number of bytes transferred and the stage trace, or `TransferError` on
NAK exhaustion or a rejected configuration. -/
def control_transfer_model (env : CtrlEnv) (packetSize : Nat) (dataLen : Option Nat) :
    Except TransferError (Nat × List StageEv) :=
  if env.cfgAccepted = false then .error .mk
  else
    match dataLen with
    | none =>
      match runChunk env.statusNaks with
      | none => .error .mk
      | some _ => .ok (0, [StageEv.setup 8, StageEv.status])
    | some n =>
      match dataStage env 0 (chunkSizes packetSize n) with
      | none => .error .mk
      | some evs =>
        match runChunk env.statusNaks with
        | none => .error .mk
        | some _ => .ok (n, StageEv.setup 8 :: (evs ++ [StageEv.status]))

/-- The Data-stage trace a successful transfer produces: one
`dataChunk` event per chunk, each recording its chunk size and the
`naks + 1` attempts the device demanded. -/
def dataTraceOf (env : CtrlEnv) (ps n : Nat) : List StageEv :=
  (chunkSizes ps n).enum.map (fun p => StageEv.dataChunk p.2 (env.dataNaks p.1 + 1))

/-! ## Concrete fixtures used by the evaluation theorems -/

/-- A reset-value `HSTPIPCFG` register. -/
def cfg0 : PipeCfg := ⟨0, 0, PTYPE.CTRL, PTOKEN.SETUP, 0, PBK.bank1, false, false⟩

/-- Quiescent register state: nothing enabled, nothing configured. -/
def regs0 : Regs := ⟨0, 0, 0, List.replicate 10 cfg0, List.replicate 10 0, 0⟩

/-- Register state for the allocation scenario: nothing enabled, but the
hardware answers `CFGOK` for every pipe (`cfgok = 0b1111111111`). -/
def regsC5 : Regs := ⟨0, 0, 0, List.replicate 10 cfg0, List.replicate 10 0, 1023⟩

/-- The configuration `alloc regsC5 .. 4 ..` ends up writing to pipe 1:
bulk IN, single bank, autosw, allocated — and size class 254, the
wrapped-around `u8` from the underflowing `trailing_zeros(4) - 4`. -/
def c5cfg : PipeCfg := ⟨0, 0, PTYPE.BLK, PTOKEN.IN, 254, PBK.bank1, true, true⟩

/-- The register state after that allocation: pipe 1 enabled, its
configuration programmed, its address sub-field written. -/
def regsC5' : Regs :=
  ⟨2, 0, 0, (List.replicate 10 cfg0).set 1 c5cfg, (List.replicate 10 0).set 1 1, 1023⟩

/-- An 8-byte all-zero transfer RAM (stands in for the 0x8000-byte one:
only offsets near 0 matter for the overlap scenario). -/
def ram0 : List Nat := List.replicate 8 0

/-- Register state with pipes 0 and 1 enabled (`pen = 0b11`). -/
def regsPen01 : Regs := ⟨3, 0, 0, List.replicate 10 cfg0, List.replicate 10 0, 0⟩

/-! ## C1 — pipe operations on channels `< MAX_PIPES` never panic -/

/-- C1: REFUTED (code bug).  Channel 9 is a valid channel
(`Pipe::get(9)` succeeds, `9 < MAX_PIPES = 10`), yet `enabled`,
`enable`, `disable` and `reset` all reach the `unreachable!()` arm for
it — the pipe-9 arm of each `match` is commented out in the source — and
consequently the `0..MAX_PIPES` reset loop of `UsbOtgHs::reset` always
panics when it reaches pipe 9 (`none` models the panic). -/
theorem c1_pipe9_hits_unreachable :
    (9 < MAX_PIPES)
  ∧ Pipe.get 9 = Except.ok 9
  ∧ Pipe.enabled regs0 9 = none
  ∧ Pipe.enable regs0 9 = none
  ∧ Pipe.disable regs0 9 = none
  ∧ Pipe.reset regs0 9 = none
  ∧ UsbOtgHs.resetPipes regs0 = none := by
  refine ⟨by decide, by decide, rfl, rfl, rfl, rfl, ?_⟩
  decide

/-! ## C3 — per-channel transfer-memory regions are disjoint -/

/-- C3: REFUTED (code bug).  The per-channel offset into the shared
transfer RAM is the pipe index itself (`uotghs_ram[pipe_num ..]`), with
no per-channel stride, so the regions of distinct channels overlap: a
2-byte write on channel 0 lands in bytes 0–1, and byte 1 is the start of
channel 1's region — reading channel 1's 2-byte region afterwards
observes the write. -/
theorem c3_write_chan0_mutates_chan1_region :
    Pipe.write regsPen01 ram0 0 [1, 2] = some (Except.ok [1, 2, 0, 0, 0, 0, 0, 0])
  ∧ Pipe.read [1, 2, 0, 0, 0, 0, 0, 0] 1 2 ≠ Pipe.read ram0 1 2 := by
  constructor
  · decide
  · decide

/-! ## C4 — stored bus addresses lie in `1..=MAX_DEVICES` -/

/-- C4: REFUTED (code bug).  `DeviceTable::next` uses the 0-based slot
index as the bus address, so the very first allocation from an empty
table stores and returns `Device { addr: 0 }` — the address the claim
says is reserved for the unaddressed/default device and never stored. -/
theorem c4_first_device_gets_addr_zero :
    (DeviceTable.new.next).1 = some ⟨0⟩
  ∧ (DeviceTable.new.next).2 = ⟨[some ⟨0⟩, none, none, none]⟩
  ∧ ¬ (1 ≤ (0 : Nat) ∧ (0 : Nat) ≤ MAX_DEVICES) := by
  decide

/-! ## C5 — undersized packet requests are rejected with `InvalidSize` -/

/-- C5: REFUTED (code bug).  `Pipe::alloc`/`init_n` never check the
requested size: allocating with `ep_size = 4` (below the smallest size
class, 8) succeeds instead of returning `InvalidSize`, mutates the
channel-enable register (`pen` goes from 0 to 2) and the pipe-1
configuration register, and hands the hardware the size-class byte 254 —
the wrapped-around `u8` of the underflowing `u32` subtraction
`trailing_zeros(4) - 4` (debug builds panic at that subtraction).  Only
the channel-0 path `init_0` has the check the claim describes: it
returns `InvalidSize(4)` and leaves the registers untouched. -/
theorem c5_alloc_undersized_not_rejected :
    pipe_size_of 4 = 254
  ∧ Pipe.alloc regsC5 1 0 PTYPE.BLK PTOKEN.IN 4 0 PBK.bank1 = some (Except.ok 1, regsC5')
  ∧ regsC5'.pen ≠ regsC5.pen
  ∧ Pipe.init_0 regsC5 1 4 = some (Except.error (PipeError.InvalidSize 4), regsC5) := by
  refine ⟨by decide, by decide, by decide, by decide⟩

/-! ## C9 — `DeviceTable::remove` is total over all addresses -/

/-- C9 counterexample: `remove(4)` on a fresh table indexes
`tbl[4]` in a 4-slot array and panics (`none` models the index-
out-of-bounds panic) instead of being a no-op returning "nothing
removed". -/
theorem c9_remove_addr4_panics :
    DeviceTable.remove DeviceTable.new 4 = none := by
  decide

/-- Helper: reading any index other than the one written by `set` is
unchanged. -/
theorem getD_set_ne {α : Type} (d a : α) :
    ∀ (l : List α) (i j : Nat), i ≠ j → (l.set i a).getD j d = l.getD j d
  | [], _, _, _ => rfl
  | _ :: _, 0, 0, hij => absurd rfl hij
  | _ :: _, 0, _ + 1, _ => rfl
  | _ :: _, _ + 1, 0, _ => rfl
  | x :: xs, i + 1, j + 1, hij =>
    getD_set_ne d a xs i j (fun h => hij (by rw [h]))

/-- Helper: overwriting a slot that already holds the written value is a
no-op. -/
theorem set_getD_eq_self {α : Type} (d : α) :
    ∀ (l : List α) (i : Nat), l.getD i d = d → l.set i d = l
  | [], _, _ => rfl
  | x :: xs, 0, h => by
    have hx : x = d := h
    rw [List.set, hx]
  | x :: xs, i + 1, h => by
    rw [List.set, set_getD_eq_self d xs i h]

/-- C9 amended: `DeviceTable::remove` is total over the addresses the
table can actually hold (`addr < MAX_DEVICES`): it never panics there,
it clears exactly the addressed slot (every other slot reads back
unchanged), and removing an unoccupied address is a no-op returning
"nothing removed".  For `addr ≥ MAX_DEVICES` the array index panics
(see the counterexample). -/
theorem c9_amended_remove_total_below_max (t : DeviceTable) (addr : Nat)
    (h : addr < t.tbl.length) :
    DeviceTable.remove t addr = some (t.tbl.getD addr none, ⟨t.tbl.set addr none⟩)
  ∧ (∀ j, j ≠ addr → (t.tbl.set addr none).getD j none = t.tbl.getD j none)
  ∧ (t.tbl.getD addr none = none → DeviceTable.remove t addr = some (none, t)) := by
  refine ⟨by simp [DeviceTable.remove, h], ?_, ?_⟩
  · intro j hj
    exact getD_set_ne none none t.tbl addr j (fun hh => hj hh.symm)
  · intro hnone
    have hset : t.tbl.set addr none = t.tbl := set_getD_eq_self none t.tbl addr hnone
    have hget : t.tbl[addr] = none := by
      rw [List.getD_eq_getElem t.tbl none h] at hnone
      exact hnone
    simp [DeviceTable.remove, h, hnone, hset, hget]

/-- C9 amended, witness: removing unoccupied address 2 from a fresh
table is a non-panicking no-op. -/
theorem c9_amended_witness :
    2 < DeviceTable.new.tbl.length
  ∧ DeviceTable.remove DeviceTable.new 2 = some (none, DeviceTable.new) :=
  ⟨by decide,
    (c9_amended_remove_total_below_max DeviceTable.new 2 (by decide)).2.2 (by decide)⟩

/-! ## C10 — device-table exhaustion and reuse -/

/-- The tables reached by successive `next()` calls from a fresh table. -/
def dt1 : DeviceTable := (DeviceTable.new.next).2

/-- Table after two `next()` calls. -/
def dt2 : DeviceTable := (dt1.next).2

/-- Table after three `next()` calls. -/
def dt3 : DeviceTable := (dt2.next).2

/-- Table after four `next()` calls: full. -/
def dt4 : DeviceTable := (dt3.next).2

/-- C10: from an empty table the first `MAX_DEVICES = 4` calls to
`next()` each return a device, the fifth returns `none`
(`OutOfDevices`), and after removing any single address `a` from the
full table the next `next()` call succeeds and returns the freed
(lowest free) address `a`. -/
theorem c10_next_exhaustion_and_reuse :
    ((DeviceTable.new.next).1.isSome = true
      ∧ (dt1.next).1.isSome = true
      ∧ (dt2.next).1.isSome = true
      ∧ (dt3.next).1.isSome = true)
  ∧ (dt4.next).1 = none
  ∧ (∀ a, a < MAX_DEVICES →
      (DeviceTable.remove dt4 a).map (fun r => (r.2.next).1) = some (some ⟨a⟩)) := by
  refine ⟨by decide, by decide, ?_⟩
  decide

/-- C10 witness: after freeing address 1 from the full table, `next()`
returns address 1 again. -/
theorem c10_witness :
    1 < MAX_DEVICES
  ∧ (DeviceTable.remove dt4 1).map (fun r => (r.2.next).1) = some (some ⟨1⟩) :=
  ⟨by decide, c10_next_exhaustion_and_reuse.2.2 1 (by decide)⟩

/-! ## C7 — enumeration with a full device table -/

/-- Helper: the `DeviceTable::next` scan over a list with no free slot
finds nothing and leaves the list unchanged. -/
theorem nextAux_full :
    ∀ (l : List (Option Device)) (i : Nat), (∀ x ∈ l, x.isSome = true) →
      nextAux l i = (none, l)
  | [], _, _ => rfl
  | none :: _, _, h => absurd (h none (List.mem_cons_self _ _)) (by decide)
  | some d :: rest, i, h => by
    have hr := nextAux_full rest (i + 1) (fun x hx => h x (List.mem_cons_of_mem _ hx))
    simp [nextAux, hr]

/-- C7: entered in `Attached(Configuring)` with every device slot
occupied (and the descriptor read succeeding, so enumeration reaches the
slot-allocation step), `configure_dev` aborts with `OutOfDevices`
leaving the table unchanged, and the `task()` call ends in
`Attached(Error)` with the table still unchanged and no driver hooks
invoked. -/
theorem c7_out_of_devices (env : Env) (drivers : List DriverM) (devs : DeviceTable)
    (hfull : ∀ x ∈ devs.tbl, x.isSome = true)
    (hspeed : env.speed ≠ Speed.invalid)
    (hdesc : env.getDescriptor = Except.ok ()) :
    configure_dev env drivers devs = some (Except.error HostError.OutOfDevices, devs)
  ∧ task env drivers ⟨HostState.Attached TaskState.Configuring, devs, []⟩ =
      some (⟨HostState.Attached TaskState.Error, devs, []⟩, []) := by
  have hnext : devs.next = (none, devs) := by
    unfold DeviceTable.next
    rw [nextAux_full devs.tbl 0 hfull]
  have h1 : configure_dev env drivers devs = some (Except.error HostError.OutOfDevices, devs) := by
    cases hsp : env.speed
    case invalid => exact absurd hsp hspeed
    all_goals simp [configure_dev, hsp, hdesc, hnext]
  exact ⟨h1, by simp [task, h1]⟩

/-- C7 witness: the scenario with a full 4-slot table, full-speed link
and a successful descriptor read. -/
theorem c7_witness :
    (∀ x ∈ dt4.tbl, x.isSome = true)
  ∧ task ⟨Speed.FULL_SPEED, Except.ok (), Except.ok ()⟩ []
      ⟨HostState.Attached TaskState.Configuring, dt4, []⟩ =
      some (⟨HostState.Attached TaskState.Error, dt4, []⟩, []) :=
  ⟨by decide,
    (c7_out_of_devices ⟨Speed.FULL_SPEED, Except.ok (), Except.ok ()⟩ [] dt4
      (by decide) (by decide) rfl).2⟩

/-! ## C8 — driver tick failure handling in `Attached(Running)` -/

/-- C8: in `Attached(Running)`, a driver whose tick reports
`Permanent(a, ...)` (with `a` a valid table index) gets its
`remove_device(a)` hook invoked exactly once and slot `a` freed, while a
driver whose tick reports `Transient` triggers no removal hook and
leaves the table unchanged. -/
theorem c8_permanent_vs_transient (env : Env) (d : DriverM) (devs : DeviceTable) (a : Nat) :
    (d.tickResult = Except.error (DriverError.Permanent a) → a < devs.tbl.length →
      task env [d] ⟨HostState.Attached TaskState.Running, devs, []⟩ =
        some (⟨HostState.Attached TaskState.Running, ⟨devs.tbl.set a none⟩, []⟩, [(0, a)]))
  ∧ (d.tickResult = Except.error DriverError.Transient →
      task env [d] ⟨HostState.Attached TaskState.Running, devs, []⟩ =
        some (⟨HostState.Attached TaskState.Running, devs, []⟩, [])) := by
  constructor
  · intro htick ha
    simp [task, tickDrivers, htick, DeviceTable.remove, ha]
  · intro htick
    simp [task, tickDrivers, htick]

/-- C8 witness: concrete drivers reporting `Permanent(1, ...)` and
`Transient` against the full table. -/
theorem c8_witness :
    task ⟨Speed.FULL_SPEED, Except.ok (), Except.ok ()⟩
        [⟨false, Except.ok (), Except.error (DriverError.Permanent 1)⟩]
        ⟨HostState.Attached TaskState.Running, dt4, []⟩ =
      some (⟨HostState.Attached TaskState.Running, ⟨dt4.tbl.set 1 none⟩, []⟩, [(0, 1)])
  ∧ task ⟨Speed.FULL_SPEED, Except.ok (), Except.ok ()⟩
        [⟨false, Except.ok (), Except.error DriverError.Transient⟩]
        ⟨HostState.Attached TaskState.Running, dt4, []⟩ =
      some (⟨HostState.Attached TaskState.Running, dt4, []⟩, []) :=
  ⟨(c8_permanent_vs_transient ⟨Speed.FULL_SPEED, Except.ok (), Except.ok ()⟩
      ⟨false, Except.ok (), Except.error (DriverError.Permanent 1)⟩ dt4 1).1 rfl (by decide),
   (c8_permanent_vs_transient ⟨Speed.FULL_SPEED, Except.ok (), Except.ok ()⟩
      ⟨false, Except.ok (), Except.error DriverError.Transient⟩ dt4 1).2 rfl⟩

/-! ## C2 — the host state machine's step function -/

/-- Helper: `configure_dev` only panics on a reserved speed value; for
the three real speeds every branch produces a result. -/
theorem configure_dev_isSome (env : Env) (drivers : List DriverM) (devs : DeviceTable)
    (hspeed : env.speed ≠ Speed.invalid) :
    (configure_dev env drivers devs).isSome = true := by
  cases hsp : env.speed
  case invalid => exact absurd hsp hspeed
  all_goals
    simp only [configure_dev, hsp]
    cases env.getDescriptor
    case error e => simp
    case ok u =>
      rcases hn : devs.next with ⟨r1, devs'⟩
      cases r1
      case none => simp [hn]
      case some dev =>
        cases env.setAddress
        case error e => simp [hn]
        case ok u2 =>
          cases hf : drivers.find? (fun d => d.wantDevice)
          case none => simp [hn, hf]
          case some d =>
            cases had : d.addDeviceResult <;> simp [hn, hf, had]

/-- An environment whose descriptor read fails: used to exhibit a
failing enumeration. -/
def envFail : Env := ⟨Speed.FULL_SPEED, Except.error TransferError.mk, Except.ok ()⟩

/-- C2 counterexample: the claim says a (state, event) pair not listed in
the §4.4 table leaves the state unchanged.  `NoVbus` has no listed
`connect` transition, yet popping the connect event
(`Attached(Configuring)` — events carry the successor state) while in
`NoVbus` replaces the state and even runs enumeration within the same
`task()` call, ending in `Attached(Error)` here — not `NoVbus`. -/
theorem c2_unlisted_pair_changes_state :
    task envFail [] ⟨HostState.NoVbus, DeviceTable.new,
        [HostState.Attached TaskState.Configuring]⟩ =
      some (⟨HostState.Attached TaskState.Error, DeviceTable.new, []⟩, [])
  ∧ HostState.Attached TaskState.Error ≠ HostState.NoVbus := by
  exact ⟨by decide, by decide⟩

/-- C2 amended: `task()` pops at most one event and unconditionally
replaces the host state with it (the handler encodes events as their
successor states: Vbus present ↦ `Detached`, connect ↦
`Attached(Configuring)`, disconnect ↦ `Detached`, Vbus lost ↦
`NoVbus`), so the §4.4 transitions do occur but so does every unlisted
(state, event) pair — last observation wins.  If the state after the
pop is `Attached(Configuring)`, enumeration runs within the same
`task()` call and the final state is `Attached(Running)` on success and
`Attached(Error)` on failure; every other post-pop state is final for
the call (`Attached(Running)` additionally ticks the drivers).
`stepState` is exactly this rule; one event is consumed per call. -/
theorem c2_amended_task_step (env : Env) (drivers : List DriverM) (st : HostState)
    (devs : DeviceTable) (evs : List HostState)
    (hspeed : env.speed ≠ Speed.invalid)
    (htick : (tickDrivers drivers 0 devs).isSome = true) :
    (task env drivers ⟨st, devs, evs⟩).map (fun r => r.1.host_state) =
      some (stepState env drivers devs (evs.headD st))
  ∧ (task env drivers ⟨st, devs, evs⟩).map (fun r => r.1.events) = some evs.tail := by
  rcases hc : configure_dev env drivers devs with _ | ⟨res, devs'⟩
  · exfalso
    have h2 := configure_dev_isSome env drivers devs hspeed
    rw [hc] at h2
    simp at h2
  · rcases ht : tickDrivers drivers 0 devs with _ | ⟨devs'', calls⟩
    · exfalso
      rw [ht] at htick
      simp at htick
    · cases evs with
      | nil =>
        cases st with
        | Attached ts =>
          cases ts with
          | Configuring => cases res <;> simp [task, stepState, hc]
          | Running => simp [task, stepState, ht]
          | Error => simp [task, stepState]
        | NoVbus => simp [task, stepState]
        | Detached => simp [task, stepState]
        | Error => simp [task, stepState]
      | cons e rest =>
        cases e with
        | Attached ts =>
          cases ts with
          | Configuring => cases res <;> simp [task, stepState, hc]
          | Running => simp [task, stepState, ht]
          | Error => simp [task, stepState]
        | NoVbus => simp [task, stepState]
        | Detached => simp [task, stepState]
        | Error => simp [task, stepState]

/-- C2 amended, witness: a connect event popped while `NoVbus`, with a
failing descriptor read: the state steps to `Attached(Error)` per the
amended rule. -/
theorem c2_amended_witness :
    (task envFail [] ⟨HostState.NoVbus, DeviceTable.new,
        [HostState.Attached TaskState.Configuring]⟩).map (fun r => r.1.host_state) =
      some (stepState envFail [] DeviceTable.new
        ([HostState.Attached TaskState.Configuring].headD HostState.NoVbus))
  ∧ stepState envFail [] DeviceTable.new (HostState.Attached TaskState.Configuring) =
      HostState.Attached TaskState.Error :=
  ⟨(c2_amended_task_step envFail [] HostState.NoVbus DeviceTable.new
      [HostState.Attached TaskState.Configuring] (by decide) (by decide)).1,
   by decide⟩

/-! ## C6 — the three-stage control-transfer protocol -/

/-- Helper: with enough fuel and a nonzero packet size, the chunk sizes
sum to the requested byte count. -/
theorem chunkSizesAux_sum (ps : Nat) (hps : 1 ≤ ps) :
    ∀ (fuel n : Nat), n ≤ fuel → (chunkSizesAux ps fuel n).sum = n := by
  intro fuel
  induction fuel with
  | zero =>
    intro n hn
    have hn0 : n = 0 := Nat.le_zero.mp hn
    subst hn0
    rfl
  | succ f ih =>
    intro n hn
    cases n with
    | zero => rfl
    | succ m =>
      have hmin : 1 ≤ min ps (m + 1) :=
        Nat.le_min.mpr ⟨hps, Nat.succ_le_succ (Nat.zero_le m)⟩
      have hmin2 : min ps (m + 1) ≤ m + 1 := Nat.min_le_right ps (m + 1)
      have hrec := ih (m + 1 - min ps (m + 1)) (by omega)
      simp only [chunkSizesAux, List.sum_cons, hrec]
      omega

/-- Helper: every chunk is nonempty and no larger than the packet size. -/
theorem chunkSizesAux_bounds (ps : Nat) (hps : 1 ≤ ps) :
    ∀ (fuel n : Nat), ∀ c ∈ chunkSizesAux ps fuel n, 1 ≤ c ∧ c ≤ ps := by
  intro fuel
  induction fuel with
  | zero =>
    intro n c hc
    cases n with
    | zero => cases hc
    | succ m => cases hc
  | succ f ih =>
    intro n c hc
    cases n with
    | zero => cases hc
    | succ m =>
      rcases List.mem_cons.mp hc with hhead | htail
      · subst hhead
        exact ⟨Nat.le_min.mpr ⟨hps, Nat.succ_le_succ (Nat.zero_le m)⟩,
          Nat.min_le_left ps (m + 1)⟩
      · exact ih _ c htail

/-- Helper: a Data stage whose every chunk stays under the NAK limit
completes, producing one `dataChunk` event per chunk with `naks + 1`
attempts. -/
theorem dataStage_ok (env : CtrlEnv) :
    ∀ (l : List Nat) (k : Nat),
      (∀ i, i < l.length → env.dataNaks (k + i) < NAK_LIMIT) →
      dataStage env k l =
        some ((l.enumFrom k).map (fun p => StageEv.dataChunk p.2 (env.dataNaks p.1 + 1))) := by
  intro l
  induction l with
  | nil => intro k _; rfl
  | cons c rest ih =>
    intro k h
    have h0 : env.dataNaks k < NAK_LIMIT := by
      have := h 0 (Nat.succ_pos rest.length)
      simpa using this
    have hrec := ih (k + 1) (by
      intro i hi
      have := h (i + 1) (Nat.succ_lt_succ hi)
      have harith : k + (i + 1) = k + 1 + i := by omega
      rw [harith] at this
      exact this)
    simp [dataStage, runChunk, h0, hrec, List.enumFrom]

/-- Helper: a Data stage with any chunk at or past the NAK limit fails. -/
theorem dataStage_fail (env : CtrlEnv) :
    ∀ (l : List Nat) (k : Nat),
      (∃ i, i < l.length ∧ NAK_LIMIT ≤ env.dataNaks (k + i)) →
      dataStage env k l = none := by
  intro l
  induction l with
  | nil =>
    intro k h
    rcases h with ⟨i, hi, _⟩
    cases hi
  | cons c rest ih =>
    intro k h
    rcases h with ⟨i, hi, hge⟩
    by_cases h0 : env.dataNaks k < NAK_LIMIT
    · cases i with
      | zero =>
        exfalso
        rw [Nat.add_zero] at hge
        omega
      | succ i' =>
        have hrec := ih (k + 1) ⟨i', Nat.lt_of_succ_lt_succ hi, by
          have harith : k + 1 + i' = k + (i' + 1) := by omega
          rw [harith]
          exact hge⟩
        simp [dataStage, runChunk, h0, hrec]
    · simp [dataStage, runChunk, h0]

/-- C6: the modelled `control_transfer` executes the three-stage
protocol — an 8-byte Setup stage, a Data stage chunked to the pipe's
negotiated packet size (chunks nonempty, each at most `packetSize`
bytes, summing to the requested length) with each chunk retried up to
the NAK limit of 15, and a Status stage — returning the number of bytes
transferred on success, and `TransferError` on a rejected configuration
or on NAK exhaustion of any data chunk or of the status stage.
(Spec-modelled: the pipe-level implementation is absent from the source
tree, which has only the `UsbOtgHs::control_transfer` caller and
`NAK_LIMIT`.) -/
theorem c6_control_transfer_stages (env : CtrlEnv) (ps n : Nat) (hps : 0 < ps) :
    (env.cfgAccepted = false →
      control_transfer_model env ps (some n) = Except.error TransferError.mk)
  ∧ (env.cfgAccepted = true →
      ((∀ k, k < (chunkSizes ps n).length → env.dataNaks k < NAK_LIMIT) →
          env.statusNaks < NAK_LIMIT →
          control_transfer_model env ps (some n) =
            Except.ok (n, StageEv.setup 8 :: (dataTraceOf env ps n ++ [StageEv.status]))
        ∧ (chunkSizes ps n).sum = n
        ∧ (∀ c ∈ chunkSizes ps n, 1 ≤ c ∧ c ≤ ps))
      ∧ ((∃ k, k < (chunkSizes ps n).length ∧ NAK_LIMIT ≤ env.dataNaks k) →
          control_transfer_model env ps (some n) = Except.error TransferError.mk)
      ∧ (NAK_LIMIT ≤ env.statusNaks →
          control_transfer_model env ps (some n) = Except.error TransferError.mk)) := by
  have hps' : ps ≠ 0 := Nat.pos_iff_ne_zero.mp hps
  refine ⟨fun h => by simp [control_transfer_model, h], fun hcfg => ⟨?_, ?_, ?_⟩⟩
  · intro hall hstat
    have hds := dataStage_ok env (chunkSizes ps n) 0 (by
      intro i hi
      simpa using hall i hi)
    refine ⟨?_, ?_, ?_⟩
    · simp [control_transfer_model, hcfg, hds, runChunk, hstat, dataTraceOf, List.enum]
    · simpa [chunkSizes, hps'] using chunkSizesAux_sum ps hps n n (Nat.le_refl n)
    · intro c hc
      rw [chunkSizes, if_neg hps'] at hc
      exact chunkSizesAux_bounds ps hps n n c hc
  · intro hex
    rcases hex with ⟨k, hk, hge⟩
    have hds := dataStage_fail env (chunkSizes ps n) 0 ⟨k, hk, by simpa using hge⟩
    simp [control_transfer_model, hcfg, hds]
  · intro hstat
    have hstat' : ¬ env.statusNaks < NAK_LIMIT := by omega
    cases hds : dataStage env 0 (chunkSizes ps n) <;>
      simp [control_transfer_model, hcfg, hds, runChunk, hstat']

/-- A cooperative device for the C6 witness: configuration accepted,
no NAKs anywhere. -/
def envCtrl : CtrlEnv := ⟨true, fun _ => 0, 0⟩

/-- C6 witness: 100 bytes over a 64-byte pipe — Setup, a 64-byte and a
36-byte data chunk (one attempt each), Status, and 100 bytes reported. -/
theorem c6_witness :
    0 < 64
  ∧ control_transfer_model envCtrl 64 (some 100) =
      Except.ok (100, StageEv.setup 8 :: (dataTraceOf envCtrl 64 100 ++ [StageEv.status]))
  ∧ dataTraceOf envCtrl 64 100 = [StageEv.dataChunk 64 1, StageEv.dataChunk 36 1] :=
  ⟨by decide,
   (((c6_control_transfer_stages envCtrl 64 100 (by decide)).2 rfl).1
      (fun k hk => by norm_num [envCtrl, NAK_LIMIT]) (by decide)).1,
   by decide⟩

end Atsam3xa
